import Mathlib

/-!
Verification of the jira-search-app repository (src/app.py and src/uat_app.py)
against its natural-language specification.

The Python sources are shallowly embedded: pure query-building, date-parsing,
filtering and pagination logic becomes executable Lean functions; the single
HTTP request performed by `search_jira` is modelled as an explicit effect
trace; Streamlit's `st.cache_data` memoisation of `extract_text` is modelled
as explicit cache-state passing.

Python string primitives (`in`, `str.lower`, `str.split`, slicing) are
embedded as executable functions over the character list of a `String`, so
that every definition evaluates inside the kernel.
-/

namespace JiraSearch

/-- Python `c in s` for a single character `c`. -/
def pyContains (s : String) (c : Char) : Bool := s.data.contains c

/-- Python `str.lower()` (ASCII case folding, which is all the sources use). -/
def pyLower (s : String) : String := String.mk (s.data.map Char.toLower)

/-- Helper for `pySplit`: scan the characters, accumulating the current word
reversed, emitting a word at each whitespace run boundary. -/
def splitWsAux : List Char → List Char → List String
  | [], cur => if cur = [] then [] else [String.mk cur.reverse]
  | c :: rest, cur =>
    if c.isWhitespace then
      if cur = [] then splitWsAux rest []
      else String.mk cur.reverse :: splitWsAux rest []
    else splitWsAux rest (c :: cur)

/-- Python `str.split()` with no argument: split on whitespace runs,
discarding empty pieces. -/
def pySplit (s : String) : List String := splitWsAux s.data []

/-! ## src/app.py, `build_jql` (lines 27-53) -/

/-- One iteration of the term loop in `build_jql` (app.py lines 32-38):
signal-vocabulary words get `^3`, words longer than 3 characters get `^2`,
everything else is emitted with no boost; every branch wraps the word in
double quotes. -/
def boost_term (word : String) : String :=
  if pyLower word ∈ ["error", "fail", "crash", "bug"] then
    "\"" ++ word ++ "\"^3"
  else if 3 < word.length then
    "\"" ++ word ++ "\"^2"
  else
    "\"" ++ word ++ "\""

/-- The `text_query` value computed in `build_jql` (app.py lines 30-41):
a query containing a double quote is treated as an exact phrase and passed
through verbatim; otherwise the query is whitespace-tokenized and each token
boosted by `boost_term`, joined with " AND ". -/
def text_query (query : String) : String :=
  if pyContains query '"' then query
  else String.intercalate " AND " ((pySplit query).map boost_term)

/-- app.py `build_jql` (lines 27-53): the text group clause, then optional
project and date clauses, joined with " AND ", then the fixed ORDER BY. -/
def build_jql (query : String) (project_filter : List String)
    (date_filter : Option String) : String :=
  let tq := text_query query
  let jql_parts := ["(summary ~ \"" ++ tq ++ "\"^3 OR description ~ \"" ++ tq
    ++ "\"^2 OR comment ~ \"" ++ tq ++ "\")"]
  let jql_parts := if project_filter ≠ [] then
      jql_parts ++ ["project in (" ++ String.intercalate "," project_filter ++ ")"]
    else jql_parts
  let jql_parts := match date_filter with
    | some d => if d ≠ "" then jql_parts ++ ["updated >= \"" ++ d ++ "\""] else jql_parts
    | none => jql_parts
  String.intercalate " AND " jql_parts ++ " ORDER BY updated DESC"

/-! ## Result pagination

app.py `display_results` (lines 146-150) and uat_app.py `main`
(lines 253-256) page with
`start = (page - 1) * RESULTS_PER_PAGE; end = start + RESULTS_PER_PAGE;
items[start:end]`, i.e. a plain Python slice with no clamping. -/

/-- The page slice computed by app.py lines 147-150 / uat_app.py lines
255-256 and 275: drop `(page - 1) * pageSize` items, take `pageSize`. -/
def paginate {α : Type} (items : List α) (pageSize page : Nat) : List α :=
  (items.drop ((page - 1) * pageSize)).take pageSize

/-! ## Result filtering -/

/-- An issue as consumed by the client-side filters: its key and the
`fields.status.name` value. -/
structure Issue where
  key : String
  status : String
deriving DecidableEq, Repr

/-- uat_app.py `main` lines 246-250: keep an issue when the selected-status
list is empty (falsy) or contains the issue's status. The absent/None
session value is modelled as the empty list, matching Python truthiness. -/
def filter_by_statuses_uat (selected : List String) (issues : List Issue) : List Issue :=
  issues.filter (fun i => selected.isEmpty || selected.contains i.status)

/-- app.py `show_results_filters` lines 125-126: `if selected_statuses:`
guards the whole filter, so an empty selection leaves the list untouched. -/
def filter_by_statuses_app (selected : List String) (issues : List Issue) : List Issue :=
  if selected.isEmpty then issues
  else issues.filter (fun i => selected.contains i.status)

/-! ## Theorems for claims C4, C6, C7 -/

/-- Claim C6 (confirmed): filtering with an empty or unset status selection
is the identity on the result sequence, in both variants of the filter
(uat_app.py main lines 246-250 and app.py show_results_filters lines
125-126): empty selection means "no constraint", not "reject everything". -/
theorem empty_status_filter_is_identity (issues : List Issue) :
    filter_by_statuses_uat [] issues = issues ∧
    filter_by_statuses_app [] issues = issues := by
  constructor
  · simp [filter_by_statuses_uat]
  · simp [filter_by_statuses_app]

/-- Claim C7 counterexample: the claim says numeric tokens are emitted
unquoted, but `build_jql` quotes every token: the numeric token `42`
compiles to `"42"`, not to bare `42`. -/
theorem numeric_token_quoted_cx :
    text_query "42" = "\"42\"" ∧ text_query "42" ≠ "42" := by
  refine ⟨rfl, by decide⟩

/-- Claim C7 (corrected): for input that is not a quoted exact phrase the
compiler tokenizes on whitespace and weights terms — signal-vocabulary
tokens {error, fail, crash, bug} (case-insensitive) get `^3`, other tokens
longer than 3 characters get `^2`, the rest no boost — but every token is
emitted quoted, numeric or not; input containing a double quote passes
through verbatim. -/
theorem build_jql_boost_rules (q w : String) :
    (pyContains q '"' = true → text_query q = q) ∧
    (pyContains q '"' = false →
      text_query q = String.intercalate " AND " ((pySplit q).map boost_term)) ∧
    (pyLower w ∈ ["error", "fail", "crash", "bug"] →
      boost_term w = "\"" ++ w ++ "\"^3") ∧
    (pyLower w ∉ ["error", "fail", "crash", "bug"] → 3 < w.length →
      boost_term w = "\"" ++ w ++ "\"^2") ∧
    (pyLower w ∉ ["error", "fail", "crash", "bug"] → w.length ≤ 3 →
      boost_term w = "\"" ++ w ++ "\"") := by
  refine ⟨?_, ?_, ?_, ?_, ?_⟩
  · intro h; simp [text_query, h]
  · intro h; simp [text_query, h]
  · intro h; simp [boost_term, h]
  · intro h1 h2; rw [boost_term, if_neg h1, if_pos h2]
  · intro h1 h2
    rw [boost_term, if_neg h1, if_neg (by omega)]

/-- Witness for `build_jql_boost_rules` at the concrete query "abc def" and
token "Error". -/
theorem build_jql_boost_rules_witness :
    pyContains "abc def" '"' = false ∧
    text_query "abc def" = String.intercalate " AND " ((pySplit "abc def").map boost_term) ∧
    pyLower "Error" ∈ ["error", "fail", "crash", "bug"] ∧
    boost_term "Error" = "\"" ++ "Error" ++ "\"^3" := by
  refine ⟨by decide, (build_jql_boost_rules "abc def" "Error").2.1 (by decide),
    by decide, (build_jql_boost_rules "abc def" "Error").2.2.1 (by decide)⟩

/-- Claim C4 counterexample: the claim says page 99 of 25 items (pageSize
10) clamps to the last page (items 21-25), but the slice is empty: there is
no clamping. -/
theorem paginate_no_clamp_cx :
    paginate (List.range 25) 10 99 = [] ∧
    paginate (List.range 25) 10 3 = [20, 21, 22, 23, 24] ∧
    paginate (List.range 25) 10 99 ≠ paginate (List.range 25) 10 3 := by
  refine ⟨by decide, by decide, by decide⟩

/-- Claim C4 (corrected): pagination is 1-indexed — page 3 of 25 items with
page size 10 is exactly items 21-25 (indices 20-24) — and an empty result
set yields an empty slice for every page number; but an out-of-range page
number is NOT clamped: any page whose start offset reaches the length
yields an empty slice, not the last page. -/
theorem paginate_rules (l : List Nat) (pageSize page : Nat)
    (h : l.length ≤ (page - 1) * pageSize) :
    paginate (List.range 25) 10 3 = [20, 21, 22, 23, 24] ∧
    (∀ p, paginate ([] : List Nat) 10 p = []) ∧
    paginate l pageSize page = [] := by
  refine ⟨by decide, ?_, ?_⟩
  · intro p; simp [paginate]
  · simp [paginate, List.drop_eq_nil_of_le h]

/-- Witness for `paginate_rules` at 25 items, page size 10, page 99. -/
theorem paginate_rules_witness :
    (List.range 25).length ≤ (99 - 1) * 10 ∧
    paginate (List.range 25) 10 99 = [] := by
  refine ⟨by decide, (paginate_rules (List.range 25) 10 99 (by decide)).2.2⟩

/-! ## src/app.py, `parse_jira_date` (lines 67-78)

The Python code calls `datetime.fromisoformat` and returns an offset-aware
datetime; on `ValueError` it falls back to `datetime.now(timezone.utc)`.
Instants are modelled as UTC epoch seconds (`Int`); the fallback-to-now
branch is modelled as `none`, every successful parse as `some epochSeconds`.
`datetime.fromisoformat` is modelled for the offset-aware
`YYYY-MM-DDTHH:MM:SS[.fff...][+HH:MM]` shapes the code paths construct
(every path either finds an explicit offset or appends `+00:00`). -/

/-- Parse exactly `n` decimal digits, accumulating their value. -/
def parseFixedNatAux : Nat → Nat → List Char → Option (Nat × List Char)
  | 0, acc, rest => some (acc, rest)
  | n + 1, acc, c :: rest =>
    if c.isDigit then parseFixedNatAux n (acc * 10 + (c.toNat - 48)) rest else none
  | _ + 1, _, [] => none

/-- Parse exactly `n` decimal digits from the front of `l`. -/
def parseFixedNat (n : Nat) (l : List Char) : Option (Nat × List Char) :=
  parseFixedNatAux n 0 l

/-- Consume one expected character. -/
def expectChar (c : Char) : List Char → Option (List Char)
  | x :: rest => if x = c then some rest else none
  | [] => none

/-- Drop a leading run of decimal digits. -/
def skipDigits : List Char → List Char
  | c :: rest => if c.isDigit then skipDigits rest else c :: rest
  | [] => []

/-- Gregorian leap-year test. -/
def isLeap (y : Nat) : Bool := (y % 4 = 0 && y % 100 ≠ 0) || y % 400 = 0

/-- Days in a month of the proleptic Gregorian calendar. -/
def daysInMonth (y m : Nat) : Nat :=
  if m = 2 then (if isLeap y then 29 else 28)
  else if m ∈ [4, 6, 9, 11] then 30 else 31

/-- Days from 1970-01-01 to the given civil date (can be negative). -/
def daysFromCivil (y m d : Nat) : Int :=
  let yi : Int := if m ≤ 2 then (y : Int) - 1 else (y : Int)
  let era : Int := yi / 400
  let yoe : Int := yi - era * 400
  let mp : Int := ((m : Int) + 9) % 12
  let doy : Int := (153 * mp + 2) / 5 + (d : Int) - 1
  let doe : Int := yoe * 365 + yoe / 4 - yoe / 100 + doy
  era * 146097 + doe - 719468

/-- A UTC offset suffix `+HH:MM` or `-HH:MM`, in minutes. -/
def parseOffset : List Char → Option Int
  | c :: rest =>
    if c = '+' || c = '-' then
      match parseFixedNat 2 rest with
      | some (hh, rest1) =>
        match expectChar ':' rest1 with
        | some rest2 =>
          match parseFixedNat 2 rest2 with
          | some (mm, []) =>
            if hh ≤ 23 && mm ≤ 59 then
              some ((if c = '-' then -1 else 1) * ((hh : Int) * 60 + (mm : Int)))
            else none
          | _ => none
        | none => none
      | none => none
    else none
  | [] => none

/-- Model of `datetime.fromisoformat` restricted to the offset-aware
datetime shapes built by `parse_jira_date`: a full
`YYYY-MM-DDTHH:MM:SS`, an optional fractional-second run, and a required
`±HH:MM` offset, validated against the Gregorian calendar. The result is
the instant as UTC epoch seconds (fraction truncated, i.e. second
precision). Any other string is a `ValueError`, i.e. `none`. -/
def fromisoformat (s : String) : Option Int := do
  let (y, l) ← parseFixedNat 4 s.data
  let l ← expectChar '-' l
  let (mo, l) ← parseFixedNat 2 l
  let l ← expectChar '-' l
  let (d, l) ← parseFixedNat 2 l
  let l ← expectChar 'T' l
  let (h, l) ← parseFixedNat 2 l
  let l ← expectChar ':' l
  let (mi, l) ← parseFixedNat 2 l
  let l ← expectChar ':' l
  let (sec, l) ← parseFixedNat 2 l
  let l ← (match l with
    | '.' :: c :: rest => if c.isDigit then some (skipDigits rest) else none
    | _ => some l)
  let off ← parseOffset l
  if 1 ≤ y && y ≤ 9999 && 1 ≤ mo && mo ≤ 12 && 1 ≤ d && d ≤ daysInMonth y mo
      && h ≤ 23 && mi ≤ 59 && sec ≤ 59 then
    some (daysFromCivil y mo d * 86400 + (h : Int) * 3600 + (mi : Int) * 60
      + (sec : Int) - off * 60)
  else none

/-- Python `s[-n:]`: the last `n` characters (the whole string when shorter). -/
def lastN (n : Nat) (s : String) : String :=
  String.mk (s.data.drop (s.data.length - n))

/-- Python `s.split('.')[0]`: the characters before the first `'.'`. -/
def beforeDot : List Char → List Char
  | [] => []
  | c :: rest => if c = '.' then [] else c :: beforeDot rest

/-- app.py `parse_jira_date` (lines 67-78). When the string contains a dot,
the code keeps the part before the first dot and appends the LAST SIX
characters of the original string (`date_str[-6:]`, commented "Keep
timezone"); then a trailing `Z` is rewritten to `+00:00`, a string with a
`+` anywhere or a `-` in its last six characters is parsed as-is, and
anything else gets `+00:00` appended. `none` models the `except ValueError`
fallback that returns the current UTC time. -/
def parse_jira_date (dateStr : String) : Option Int :=
  let ds := if pyContains dateStr '.' then
      String.mk (beforeDot dateStr.data) ++ lastN 6 dateStr
    else dateStr
  if ds.data.getLast? = some 'Z' then
    fromisoformat (String.mk ds.data.dropLast ++ "+00:00")
  else if pyContains ds '+' || pyContains (lastN 6 ds) '-' then
    fromisoformat ds
  else
    fromisoformat (ds ++ "+00:00")

/-- Claim C3 evaluated at the failing input: the fractional-second
timestamp `2024-01-15T10:30:00.123Z` is mangled to
`2024-01-15T10:30:000.123Z` (the "strip" keeps `0.123Z`, the last six
characters, instead of the timezone), so `fromisoformat` raises and the
code falls back to the current time (`none`), while the same timestamp
without fractional seconds parses to the instant 1705314600
(2024-01-15T10:30:00Z). The two forms do not agree, contradicting the
claim's required equality at second precision. -/
theorem parse_jira_date_fractional_bug :
    parse_jira_date "2024-01-15T10:30:00.123Z" = none ∧
    parse_jira_date "2024-01-15T10:30:00Z" = some 1705314600 := by
  refine ⟨by decide, by decide⟩

/-! ## src/uat_app.py, `sanitize_jql` (lines 48-52) and `search_jira`
JQL construction (lines 54-70) -/

/-- The character-level effect of Python `query.replace('"', '\\"')`: each
double quote becomes backslash-quote, all other characters unchanged. -/
def escapeChars : List Char → List Char
  | [] => []
  | c :: rest => (if c = '"' then ['\\', '"'] else [c]) ++ escapeChars rest

/-- uat_app.py `sanitize_jql` (lines 48-52): when the query contains a
double quote, replace every `"` with `\"`. -/
def sanitize_jql (query : String) : String :=
  if pyContains query '"' then String.mk (escapeChars query.data) else query

/-- uat_app.py `TIME_FRAMES` (lines 21-28): label to optional day count. -/
def TIME_FRAMES : List (String × Option Nat) :=
  [("Last 7 days", some 7), ("Last 30 days", some 30), ("Last 90 days", some 90),
   ("Last 6 months", some 180), ("Last year", some 365), ("All time", none)]

/-- uat_app.py `search_jira` lines 54-70: the JQL string built before the
HTTP request. Clauses are appended sequentially: the project list
(interpolated in the order given, each project quoted, comma-joined), then —
each under its Python truthiness guard — the sanitized free-text clause, the
status clause, the platform clause (NOT sanitized), the relative-date
clause, and finally the fixed ORDER BY suffix. -/
def search_jira_jql (query : String) (projects : List String)
    (statuses : List String) (platform : Option String) (timeFrame : String) : String :=
  let jql := "project IN ("
    ++ String.intercalate "," (projects.map (fun p => "\"" ++ p ++ "\"")) ++ ")"
  let jql := if query ≠ "" then
      jql ++ " AND (text ~ \"" ++ sanitize_jql query
        ++ "\" OR attachmentContent ~ \"" ++ sanitize_jql query ++ "\")"
    else jql
  let jql := if statuses ≠ [] then
      jql ++ " AND status IN ("
        ++ String.intercalate "," (statuses.map (fun s => "\"" ++ s ++ "\"")) ++ ")"
    else jql
  let jql := match platform with
    | some p => if p ≠ "" then jql ++ " AND \"Platform\" ~ \"" ++ p ++ "\"" else jql
    | none => jql
  let jql := match List.lookup timeFrame TIME_FRAMES with
    | some (some n) => if n ≠ 0 then jql ++ " AND created >= -" ++ toString n ++ "d" else jql
    | _ => jql
  jql ++ " ORDER BY created DESC, project ASC"

/-! Clause-by-clause view of the same construction, one definition per
source line, used to state ordering properties. -/

/-- The project clause (uat_app.py line 55). -/
def projectClause (projects : List String) : String :=
  "project IN ("
    ++ String.intercalate "," (projects.map (fun p => "\"" ++ p ++ "\"")) ++ ")"

/-- The free-text clause (uat_app.py lines 57-59), empty when the query is
empty (falsy). -/
def textClause (query : String) : String :=
  if query ≠ "" then
    " AND (text ~ \"" ++ sanitize_jql query
      ++ "\" OR attachmentContent ~ \"" ++ sanitize_jql query ++ "\")"
  else ""

/-- The status clause (uat_app.py lines 61-62), empty for an empty list. -/
def statusClause (statuses : List String) : String :=
  if statuses ≠ [] then
    " AND status IN ("
      ++ String.intercalate "," (statuses.map (fun s => "\"" ++ s ++ "\"")) ++ ")"
  else ""

/-- The platform clause (uat_app.py lines 64-65), empty for a falsy value. -/
def platformClause (platform : Option String) : String :=
  match platform with
  | some p => if p ≠ "" then " AND \"Platform\" ~ \"" ++ p ++ "\"" else ""
  | none => ""

/-- The relative-date clause (uat_app.py lines 67-68). -/
def timeClause (timeFrame : String) : String :=
  match List.lookup timeFrame TIME_FRAMES with
  | some (some n) => if n ≠ 0 then " AND created >= -" ++ toString n ++ "d" else ""
  | _ => ""

/-- The fixed sort suffix (uat_app.py line 70). -/
def orderClause : String := " ORDER BY created DESC, project ASC"

/-- The sequential `jql += ...` construction equals the concatenation of the
per-line clauses, in source order: project, text, status, platform, time,
ORDER BY. -/
theorem search_jira_jql_decomp (query : String) (projects statuses : List String)
    (platform : Option String) (timeFrame : String) :
    search_jira_jql query projects statuses platform timeFrame =
      projectClause projects ++ (textClause query ++ (statusClause statuses
        ++ (platformClause platform ++ (timeClause timeFrame ++ orderClause)))) := by
  simp only [search_jira_jql, projectClause, textClause, statusClause,
    platformClause, timeClause, orderClause]
  repeat' split
  all_goals simp only [String.append_assoc, String.append_empty, String.empty_append]

/-! ## Theorems for claims C1, C2, C8 -/

/-- `true` iff every double quote in the string is immediately preceded by a
backslash (tracking the previous character while scanning). -/
def quotesEscapedAux : Option Char → List Char → Bool
  | _, [] => true
  | prev, c :: rest =>
    if c = '"' ∧ prev ≠ some '\\' then false else quotesEscapedAux (some c) rest

/-- A free-text value is safely escaped when it contains no unescaped
double quote. -/
def quotesEscaped (s : String) : Bool := quotesEscapedAux none s.data

theorem quotesEscapedAux_escapeChars (l : List Char) :
    ∀ prev, quotesEscapedAux prev (escapeChars l) = true := by
  induction l with
  | nil => intro prev; rfl
  | cons c rest ih =>
    intro prev
    by_cases hc : c = '"'
    · subst hc
      simp only [escapeChars, if_pos rfl, List.cons_append, List.nil_append,
        quotesEscapedAux]
      rw [if_neg (by simp), if_neg (by simp)]
      exact ih _
    · simp only [escapeChars, if_neg hc, List.cons_append, List.nil_append,
        quotesEscapedAux]
      rw [if_neg (by simp [hc])]
      exact ih _

theorem quotesEscapedAux_no_quote (l : List Char) (h : l.contains '"' = false) :
    ∀ prev, quotesEscapedAux prev l = true := by
  induction l with
  | nil => intro prev; rfl
  | cons c rest ih =>
    intro prev
    simp only [List.contains_cons, Bool.or_eq_false_iff, beq_eq_false_iff_ne] at h
    simp only [quotesEscapedAux]
    rw [if_neg (by rintro ⟨hc, _⟩; exact h.1 hc.symm)]
    exact ih h.2 _

/-- Claim C1 counterexample: the platform facet value is interpolated into
the compiled uat query verbatim — for platform `a"b` the output embeds
`"a"b"`, not the escaped `"a\"b"`, so the compiled query carries an
unescaped quote inside the clause. -/
theorem platform_value_unescaped_cx :
    search_jira_jql "" ["RBOC"] [] (some "a\"b") "All time" =
      "project IN (\"RBOC\") AND \"Platform\" ~ \"a\"b\" ORDER BY created DESC, project ASC" ∧
    search_jira_jql "" ["RBOC"] [] (some "a\"b") "All time" ≠
      "project IN (\"RBOC\") AND \"Platform\" ~ \"a\\\"b\" ORDER BY created DESC, project ASC" ∧
    quotesEscaped "a\"b" = false := by
  refine ⟨by decide, by decide, by decide⟩

/-- Claim C1 (corrected): only the free-text search term is escaped before
insertion — `sanitize_jql` backslash-escapes every embedded double quote, so
the sanitized term never contains an unescaped quote — while the platform
facet value is interpolated without any escaping (and app.py `build_jql`
passes a quote-containing query through verbatim). -/
theorem sanitize_jql_escapes_quotes (q : String) :
    quotesEscaped (sanitize_jql q) = true := by
  unfold sanitize_jql quotesEscaped
  by_cases h : pyContains q '"'
  · rw [if_pos h]
    exact quotesEscapedAux_escapeChars q.data none
  · rw [if_neg h]
    exact quotesEscapedAux_no_quote q.data (by simpa [pyContains] using h) none

/-- Claim C2 counterexample: permuting the project list changes the
compiled query string — the compiler does not sort facet lists. -/
theorem project_order_changes_jql_cx :
    search_jira_jql "" ["AAA", "BBB"] [] none "All time" ≠
    search_jira_jql "" ["BBB", "AAA"] [] none "All time" := by decide

/-- Claim C2 (corrected): the compiled query is a deterministic pure
function of the request, but it is NOT order-canonicalized: the project
list is interpolated in exactly the order given — the compiled string
always begins with the project clause listing the projects in input order —
so permuting a facet list generally changes the string. -/
theorem jql_projects_in_input_order (query : String) (projects statuses : List String)
    (platform : Option String) (timeFrame : String) :
    ∃ rest, search_jira_jql query projects statuses platform timeFrame =
      "project IN ("
        ++ String.intercalate "," (projects.map (fun p => "\"" ++ p ++ "\"")) ++ ")"
        ++ rest := by
  exact ⟨_, search_jira_jql_decomp query projects statuses platform timeFrame⟩

/-- The first `n` characters of a string. -/
def strTake (s : String) (n : Nat) : String := String.mk (s.data.take n)

/-- Claim C8 counterexample: with both a free-text term and a project list
present, the compiled query starts with the project clause, not the text
clause — the order is project, text, …, contradicting the claimed
text-first order. -/
theorem clause_order_cx :
    search_jira_jql "x" ["RBOC"] [] none "All time" =
      "project IN (\"RBOC\") AND (text ~ \"x\" OR attachmentContent ~ \"x\") ORDER BY created DESC, project ASC" ∧
    strTake (search_jira_jql "x" ["RBOC"] [] none "All time") 5 ≠ "(text" ∧
    strTake (search_jira_jql "x" ["RBOC"] [] none "All time") 10 = "project IN" := by
  refine ⟨by decide, by decide, by decide⟩

/-- Claim C8 (corrected): for every combination of filters the compiler
appends AND clauses in the fixed order project, text, status, platform,
time, followed by the constant ORDER BY suffix — so the compiled string
always decomposes clause-by-clause in that order, and identical filter sets
compile to byte-identical strings. -/
theorem jql_clause_order (query : String) (projects statuses : List String)
    (platform : Option String) (timeFrame : String) :
    search_jira_jql query projects statuses platform timeFrame =
      projectClause projects ++ textClause query ++ statusClause statuses
        ++ platformClause platform ++ timeClause timeFrame ++ orderClause := by
  rw [search_jira_jql_decomp]
  simp only [String.append_assoc]

/-! ## Retrieval client: HTTP execution (uat_app.py lines 72-87,
app.py lines 55-65)

`search_jira` performs exactly one `requests.get` (timeout 20s in uat_app,
30s in app) and calls `raise_for_status()`; uat_app catches every exception,
shows an inline error and returns `[]`. Neither file imports `time`, sleeps,
retries, keeps a response cache, or branches on the status code: the client
side of one call is a single-element effect trace with no delay. -/

/-- Client-side effects of one `search_jira` call. -/
inductive Effect where
  | httpGet (timeoutSec : Nat)
  | sleep (seconds : Nat)
deriving DecidableEq, Repr

/-- The effects of one uat_app.py `search_jira` call (lines 73-82): exactly
one GET with a 20-second timeout and nothing else — no sleep, no retry
loop, no cache lookup exists in the source. -/
def search_jira_effects : List Effect := [Effect.httpGet 20]

/-- The combined client effect trace of `n` sequential `search_jira`
calls. -/
def seq_search_effects : Nat → List Effect
  | 0 => []
  | n + 1 => search_jira_effects ++ seq_search_effects n

/-- Total client-inserted delay (sum of sleeps) in an effect trace. -/
def clientDelay : List Effect → Nat
  | [] => 0
  | Effect.sleep s :: rest => s + clientDelay rest
  | Effect.httpGet _ :: rest => clientDelay rest

/-- Number of HTTP requests in an effect trace. -/
def httpRequestCount : List Effect → Nat
  | [] => 0
  | Effect.httpGet _ :: rest => 1 + httpRequestCount rest
  | Effect.sleep _ :: rest => httpRequestCount rest

/-- An HTTP response to the search request: status code and decoded
issues. -/
structure HttpResponse where
  status : Nat
  issues : List Issue
deriving DecidableEq, Repr

/-- uat_app.py `search_jira` result handling (lines 72-87):
`raise_for_status()` raises for any 4xx/5xx status, the blanket `except`
shows `st.error` with the exception text and returns `[]`; a 2xx/3xx
response yields the decoded issue list with no error. The outcome is the
returned issue list together with the reported error status, if any. -/
def search_jira_outcome (r : HttpResponse) : List Issue × Option Nat :=
  if 400 ≤ r.status ∧ r.status < 600 then ([], some r.status) else (r.issues, none)

/-- Claim C5 counterexample: a 403 is handled exactly like a transient 500 —
both fall into the same blanket exception handler, producing an empty
result list and an inline error that differs only in the echoed status
code. There is no distinct AuthError classification, and no response cache
exists to invalidate. -/
theorem http403_not_distinguished_cx :
    search_jira_outcome ⟨403, [⟨"RBOC-1", "Open"⟩]⟩ = ([], some 403) ∧
    search_jira_outcome ⟨500, [⟨"RBOC-1", "Open"⟩]⟩ = ([], some 500) ∧
    (search_jira_outcome ⟨403, [⟨"RBOC-1", "Open"⟩]⟩).1 =
      (search_jira_outcome ⟨500, [⟨"RBOC-1", "Open"⟩]⟩).1 := by
  refine ⟨by decide, by decide, by decide⟩

/-- Claim C5 (corrected): a 403 is indeed never retried — every
`search_jira` call performs exactly one HTTP request with zero
client-inserted delay — and, since the client keeps no response cache,
every query (including the next identical one) hits the network; but a 403
is not classified as a distinct AuthError: like every 4xx/5xx it yields the
generic inline error and an empty result list. -/
theorem http_error_handling (r : HttpResponse) (h1 : 400 ≤ r.status)
    (h2 : r.status < 600) :
    search_jira_outcome r = ([], some r.status) ∧
    httpRequestCount search_jira_effects = 1 ∧
    clientDelay search_jira_effects = 0 := by
  refine ⟨?_, by decide, by decide⟩
  rw [search_jira_outcome, if_pos ⟨h1, h2⟩]

/-- Witness for `http_error_handling` at a concrete 403 response. -/
theorem http_error_handling_witness :
    400 ≤ (403 : Nat) ∧ (403 : Nat) < 600 ∧
    search_jira_outcome ⟨403, [⟨"RBOC-1", "Open"⟩]⟩ = ([], some 403) := by
  refine ⟨by decide, by decide,
    (http_error_handling ⟨403, [⟨"RBOC-1", "Open"⟩]⟩ (by decide) (by decide)).1⟩

/-- Claim C9 counterexample: three sequential `search_jira` calls insert a
total client-side delay of 0 seconds — not the claimed two 2-second gaps
(≥ 4 seconds) — because the source contains no rate limiter at all; all
three requests are issued. -/
theorem no_rate_limit_cx :
    clientDelay (seq_search_effects 3) = 0 ∧
    ¬ (4 ≤ clientDelay (seq_search_effects 3)) ∧
    httpRequestCount (seq_search_effects 3) = 3 := by
  refine ⟨by decide, by decide, by decide⟩

/-- Claim C9 (corrected): the retrieval client enforces no inter-call
spacing whatsoever: for every number `n` of sequential calls the client
inserts zero delay and issues exactly `n` HTTP requests (no call is
dropped, and no call — first or later — is ever delayed). -/
theorem no_client_rate_limiting (n : Nat) :
    clientDelay (seq_search_effects n) = 0 ∧
    httpRequestCount (seq_search_effects n) = n := by
  induction n with
  | zero => exact ⟨rfl, rfl⟩
  | succ m ih =>
    have hstep : seq_search_effects (m + 1) =
        Effect.httpGet 20 :: seq_search_effects m := rfl
    rw [hstep]
    simp only [clientDelay, httpRequestCount, ih.1, ih.2]
    exact ⟨trivial, by omega⟩

/-! ## Attachment text extraction cache (uat_app.py lines 105-116)

`extract_text` is decorated with `@st.cache_data`; per Streamlit semantics a
parameter whose name starts with an underscore is excluded from the cache
key, and `extract_text` declares its credential parameter as `_auth_token`,
so the memoisation key is `image_url` alone. The decorator is modelled as
explicit cache-state passing: the cache maps the URL to the cached text,
`doOcr` abstracts the function body (download with the given credentials,
decode, OCR — or `""` on any failure), and the returned flag records
whether the body ran. -/

/-- uat_app.py `extract_text` (lines 105-116) under `@st.cache_data`: on a
cache hit for `imageUrl` the cached text is returned and the body does not
run; on a miss the body runs with the supplied credentials and the result
is cached under `imageUrl` only — `_auth_token` is not part of the key. -/
def extract_text (doOcr : String → String → String)
    (cache : List (String × String)) (authToken imageUrl : String) :
    String × List (String × String) × Bool :=
  match List.lookup imageUrl cache with
  | some t => (t, cache, false)
  | none =>
    let t := doOcr authToken imageUrl
    (t, (imageUrl, t) :: cache, true)

/-- Claim C10 (confirmed): the OCR cache is keyed by the attachment content
URL alone — the credential argument is excluded from the key — so a second
call for the same URL, with any (in particular different) credentials,
returns the text produced by the first call and performs no new
download/OCR run. -/
theorem ocr_cache_ignores_credentials (doOcr : String → String → String)
    (cache : List (String × String)) (auth1 auth2 url : String) :
    (extract_text doOcr (extract_text doOcr cache auth1 url).2.1 auth2 url).1 =
      (extract_text doOcr cache auth1 url).1 ∧
    (extract_text doOcr (extract_text doOcr cache auth1 url).2.1 auth2 url).2.2 = false := by
  cases h : List.lookup url cache <;>
    simp [extract_text, h, List.lookup]

end JiraSearch
